import Mathlib

/-!
Shallow embedding of the LCU connector core of the skin-selector repository
(`src/main/lcu-client.ts`): session interpretation, skin resolution with
carousel/inventory fallback, the Data Dragon name/version cache, the
selection writer, and the connection supervisor's event handling.

Optional JSON fields are modelled as `Option`; a JS value that may be a
non-array is an `Option` around the list; requests that may throw are
`Except` values supplied by an environment record.  Mutable instance fields
of the `LCUConnector` class are threaded as explicit state.
-/

namespace SkinSelector

/-- `myTeam` entry of a champion-select session: `{cellId, championId}`. -/
structure TeamMember where
  cellId : Int
  championId : Nat
deriving Repr, DecidableEq

/-- A champion-select action record `{id, actorCellId, type, completed, championId}`.
`completed` may be absent in the payload, hence `Option Bool`. -/
structure ChampSelectAction where
  id : Nat
  actorCellId : Int
  type : String
  completed : Option Bool
  championId : Nat
deriving Repr, DecidableEq

/-- Champion-select session snapshot.  `myTeam` may be absent
(the code guards with `session.myTeam || []`); `actions` is `none` when the
field is absent or not an array (the code guards with `Array.isArray`). -/
structure ChampSelectSession where
  localPlayerCellId : Int
  myTeam : Option (List TeamMember)
  actions : Option (List (List ChampSelectAction))
deriving Repr, DecidableEq

/-- `getSelectedChampionFromSession` (lcu-client.ts:295-302): find the
`myTeam` entry whose `cellId` equals `localPlayerCellId` and return its
`championId`, else `null`. -/
def getSelectedChampionFromSession (session : Option ChampSelectSession) : Option Nat :=
  match session with
  | none => none
  | some s =>
    let myTeam := s.myTeam.getD []
    match myTeam.find? (fun member => member.cellId == s.localPlayerCellId) with
    | some myCell => some myCell.championId
    | none => none

/-- `getLocalPlayerPickAction` (lcu-client.ts:307-313): flatten the nested
action groups and return the first action with `actorCellId ===
localPlayerCellId && type === "pick"`, else `null`. -/
def getLocalPlayerPickAction (session : Option ChampSelectSession) : Option ChampSelectAction :=
  match session with
  | none => none
  | some s =>
    match s.actions with
    | none => none
    | some groups =>
      groups.flatten.find? (fun action =>
        action.actorCellId == s.localPlayerCellId && action.type == "pick")

/-- `isLocalPlayerLockedIn` (lcu-client.ts:318-321):
`!!action && action.completed === true`. -/
def isLocalPlayerLockedIn (session : Option ChampSelectSession) : Bool :=
  match getLocalPlayerPickAction session with
  | some action => action.completed == some true
  | none => false

/-- Ownership flag object `{ owned: boolean }`. -/
structure Ownership where
  owned : Bool
deriving Repr, DecidableEq

/-- JS truthiness of an optional-string field `!!x`: absent or `""` is falsy. -/
def strTruthy : Option String → Bool
  | some s => s ≠ ""
  | none => false

/-- JS `a || b` for `a : string | undefined`, `b : string`. -/
def strOr (a : Option String) (b : String) : String :=
  match a with
  | some s => if s = "" then b else s
  | none => b

/-- JS `!!o?.owned` for an optional ownership object. -/
def ownedOf : Option Ownership → Bool
  | some o => o.owned
  | none => false

/-- Connector instance state: the `championMap` and `ddragonVersion` cache
fields of `LCUConnector` (lcu-client.ts:74-75).  The champion map is kept as
an insertion-ordered association list of (champion-key, slug) entries. -/
structure ConnectorState where
  championMap : Option (List (String × String))
  ddragonVersion : Option String
deriving Repr, DecidableEq

/-- Environment for the Data Dragon fetches: the versions.json request and
the per-version champion.json request.  `championJson v` yields the
`Object.entries` of the champion record as (slug, key) pairs; `.error`
means the HTTP request threw. -/
structure DdragonEnv where
  versions : Except Unit (List String)
  championJson : String → Except Unit (List (String × String))

/-- JS object lookup on an insertion-ordered association list: the last
assignment to a key wins. -/
def recordLookup (m : List (String × String)) (k : String) : Option String :=
  m.reverse.lookup k

/-- `getLatestDdragonVersion` (lcu-client.ts:370-387): cached; on success
`const [latest] = response.data; this.ddragonVersion = latest || "latest"`;
on fetch failure the sentinel `"latest"` is cached. -/
def getLatestDdragonVersion (env : DdragonEnv) (st : ConnectorState) :
    String × ConnectorState :=
  match st.ddragonVersion with
  | some v => (v, st)
  | none =>
    match env.versions with
    | .ok data =>
      let v := match data.head? with
        | some latest => if latest = "" then "latest" else latest
        | none => "latest"
      (v, { st with ddragonVersion := some v })
    | .error _ => ("latest", { st with ddragonVersion := some "latest" })

/-- `getChampionNameMap` (lcu-client.ts:343-368): cached; on success builds
`championMap[champ.key] = key` from champion.json and caches it; on fetch
failure logs and returns `{}` without caching. -/
def getChampionNameMap (env : DdragonEnv) (st : ConnectorState) :
    List (String × String) × ConnectorState :=
  match st.championMap with
  | some m => (m, st)
  | none =>
    let (version, st1) := getLatestDdragonVersion env st
    match env.championJson version with
    | .ok champions =>
      let m := champions.map (fun p => (p.2, p.1))
      (m, { st1 with championMap := some m })
    | .error _ => ([], st1)

/-- `getChampionNameById` (lcu-client.ts:392-395):
`championMap[championId] || Champion{championId}`. -/
def getChampionNameById (env : DdragonEnv) (st : ConnectorState) (championId : Nat) :
    String × ConnectorState :=
  let (championMap, st1) := getChampionNameMap env st
  let name := match recordLookup championMap (toString championId) with
    | some s => if s = "" then "Champion" ++ toString championId else s
    | none => "Champion" ++ toString championId
  (name, st1)

/-- Carousel child entry (`CarouselChroma`, lcu-client.ts:403-410). -/
structure CarouselChroma where
  id : Nat
  name : String
  chromaPreviewPath : Option String
  chromaPath : Option String
  colors : Option (List String)
  ownership : Option Ownership
deriving Repr, DecidableEq

/-- Carousel skin entry (`CarouselSkin`, lcu-client.ts:412-418). -/
structure CarouselSkin where
  id : Nat
  name : String
  championId : Nat
  ownership : Option Ownership
  childSkins : Option (List CarouselChroma)
deriving Repr, DecidableEq

/-- Inventory chroma entry (`ChampionSkin.chromas` element, lcu-client.ts:21-27). -/
structure InvChroma where
  id : Nat
  name : String
  chromaPath : Option String
  colors : Option (List String)
  ownership : Option Ownership
deriving Repr, DecidableEq

/-- Inventory skin entry (`ChampionSkin`, lcu-client.ts:17-28). -/
structure InvSkin where
  id : Nat
  name : String
  ownership : Ownership
  chromas : Option (List InvChroma)
deriving Repr, DecidableEq

/-- `ChampionData` (lcu-client.ts:30-32). -/
structure ChampionData where
  skins : Option (List InvSkin)
deriving Repr, DecidableEq

/-- Output chroma record of `OwnedSkin.chromas` (lcu-client.ts:48-56);
`chromaNum` is `string | number`. -/
structure OwnedChroma where
  id : Nat
  name : String
  chromaPath : Option String
  colors : List String
  owned : Bool
  imageUrl : String
  chromaNum : String ⊕ Nat
deriving Repr, DecidableEq

/-- Output record `OwnedSkin` (lcu-client.ts:44-60). -/
structure OwnedSkin where
  id : Nat
  name : String
  ownership : Ownership
  chromas : List OwnedChroma
  hasOwnedChromas : Bool
  loadingUrl : String
  splashUrl : String
deriving Repr, DecidableEq

/-- Community Dragon chroma image URL (lcu-client.ts:444, 528). -/
def cdragonChromaUrl (championId chromaId : Nat) : String :=
  "https://raw.communitydragon.org/latest/plugins/rcp-be-lol-game-data/global/default/v1/champion-chroma-images/"
    ++ toString championId ++ "/" ++ toString chromaId ++ ".png"

/-- Data Dragon loading-screen URL (lcu-client.ts:479, 541). -/
def ddragonLoadingUrl (championName : String) (skinNum : Nat) : String :=
  "https://ddragon.leagueoflegends.com/cdn/img/champion/loading/"
    ++ championName ++ "_" ++ toString skinNum ++ ".jpg"

/-- Data Dragon splash-art URL (lcu-client.ts:462, 480, 543). -/
def ddragonSplashUrl (championName : String) (skinNum : Nat) : String :=
  "https://ddragon.leagueoflegends.com/cdn/img/champion/splash/"
    ++ championName ++ "_" ++ toString skinNum ++ ".jpg"

/-- Case-insensitive check that three characters spell `png` or `jpg`
(the `(png|jpg)` alternative of the regex at lcu-client.ts:518 with `/i`). -/
def extIsImage (e1 e2 e3 : Char) : Bool :=
  let l := [e1.toLower, e2.toLower, e3.toLower]
  l = ['p', 'n', 'g'] || l = ['j', 'p', 'g']

/-- The capture group of `chromaPath.match(/(\d+)\.(png|jpg)$/i)`
(lcu-client.ts:518): the maximal non-empty run of trailing digits just
before a final `.png`/`.jpg` (case-insensitive), if the path has that shape. -/
def trailingChromaNum (path : String) : Option String :=
  match path.data.reverse with
  | e3 :: e2 :: e1 :: '.' :: rest =>
    if extIsImage e1 e2 e3 then
      let digits := rest.takeWhile Char.isDigit
      if digits.isEmpty then none else some (String.mk digits.reverse)
    else none
  | _ => none

/-- Body of the carousel `reduce` (lcu-client.ts:426-485): map one carousel
skin entry to its `OwnedSkin`, or `none` when the entry is dropped
(`skinOwned || chromas.length > 0` fails). -/
def carouselEntry (championName : String) (championId : Nat) (skin : CarouselSkin) :
    Option OwnedSkin :=
  let skinOwned := ownedOf skin.ownership
  let childSkins := skin.childSkins.getD []
  let chromaChildren := childSkins.filter (fun c => strTruthy c.chromaPreviewPath)
  let chromaMapped := (chromaChildren.filter (fun c => ownedOf c.ownership)).map
    (fun c =>
      { id := c.id
        name := c.name
        chromaPath := some (strOr c.chromaPreviewPath (strOr c.chromaPath ""))
        colors := c.colors.getD []
        owned := ownedOf c.ownership
        imageUrl := cdragonChromaUrl championId c.id
        chromaNum := Sum.inr c.id : OwnedChroma })
  let nonChromaChildren := childSkins.filter
    (fun c => !strTruthy c.chromaPreviewPath && ownedOf c.ownership)
  let nonChromaAsChromas := nonChromaChildren.map
    (fun c =>
      { id := c.id
        name := c.name
        chromaPath := some (strOr c.chromaPreviewPath (strOr c.chromaPath ""))
        colors := c.colors.getD []
        owned := ownedOf c.ownership
        imageUrl := ddragonSplashUrl championName (c.id % 1000)
        chromaNum := Sum.inr c.id : OwnedChroma })
  let chromas := chromaMapped ++ nonChromaAsChromas
  let skinNum := skin.id % 1000
  if skinOwned || chromas.length > 0 then
    some
      { id := skin.id
        name := skin.name
        ownership := skin.ownership.getD { owned := skinOwned }
        chromas := chromas
        hasOwnedChromas := chromas.length > 0
        loadingUrl := ddragonLoadingUrl championName skinNum
        splashUrl := ddragonSplashUrl championName skinNum }
  else none

/-- The carousel branch of `getChampionSkins` (lcu-client.ts:426-485):
filter to entries of the requested champion, then accumulate the included
ones in order. -/
def carouselSkins (championName : String) (championId : Nat)
    (list : List CarouselSkin) : List OwnedSkin :=
  (list.filter (fun s => s.championId == championId)).filterMap
    (carouselEntry championName championId)

/-- One chroma of the fallback mapping (lcu-client.ts:514-531). -/
def fallbackChroma (championId : Nat) (c : InvChroma) : OwnedChroma :=
  let chromaPath := strOr c.chromaPath ""
  let chromaNum : String ⊕ Nat :=
    match trailingChromaNum chromaPath with
    | some digits => Sum.inl digits
    | none => Sum.inr c.id
  { id := c.id
    name := c.name
    chromaPath := c.chromaPath
    colors := c.colors.getD []
    owned := ownedOf c.ownership
    imageUrl := cdragonChromaUrl championId c.id
    chromaNum := chromaNum }

/-- The fallback inventory branch of `getChampionSkins`
(lcu-client.ts:505-545): keep owned skins, map their chromas and keep the
owned ones. -/
def fallbackSkins (championName : String) (championId : Nat)
    (skins : List InvSkin) : List OwnedSkin :=
  (skins.filter (fun skin => skin.ownership.owned)).map
    (fun skin =>
      let skinNum := skin.id % 1000
      let chromas := ((skin.chromas.getD []).map (fallbackChroma championId)).filter
        (fun c => c.owned)
      { id := skin.id
        name := skin.name
        ownership := skin.ownership
        chromas := chromas
        hasOwnedChromas := chromas.length > 0
        loadingUrl := ddragonLoadingUrl championName skinNum
        splashUrl := ddragonSplashUrl championName skinNum })

/-- Environment of one `getChampionSkins` call: the carousel request
(`.error` = request threw; `.ok none` = response not an array; `.ok (some l)`
= array `l` after the `?.data ??` unwrap), the champion-inventory request,
and the Data Dragon fetches. -/
structure SkinEnv where
  carousel : Except Unit (Option (List CarouselSkin))
  champion : Except String (Option ChampionData)
  ddragon : DdragonEnv

/-- `getChampionSkins` (lcu-client.ts:400-546): prefer the carousel source;
on a thrown carousel request, a non-array response, or an empty per-champion
result, fall back to the inventory source.  A thrown inventory request
propagates. -/
def getChampionSkins (env : SkinEnv) (st : ConnectorState) (championId : Nat) :
    Except String (List OwnedSkin) × ConnectorState :=
  let afterCarousel : Option (List OwnedSkin) × ConnectorState :=
    match env.carousel with
    | .error _ => (none, st)
    | .ok none => (none, st)
    | .ok (some list) =>
      let (championName, st1) := getChampionNameById env.ddragon st championId
      let ownedFromCarousel := carouselSkins championName championId list
      if ownedFromCarousel.length > 0 then (some ownedFromCarousel, st1)
      else (none, st1)
  match afterCarousel with
  | (some result, st1) => (.ok result, st1)
  | (none, st1) =>
    match env.champion with
    | .error e => (.error e, st1)
    | .ok none => (.ok [], st1)
    | .ok (some champion) =>
      match champion.skins with
      | none => (.ok [], st1)
      | some skins =>
        let (championName, st2) := getChampionNameById env.ddragon st1 championId
        (.ok (fallbackSkins championName championId skins), st2)

/-- One write request issued by `selectSkin`: the pick-action patch
(`/lol-champ-select/v1/session/actions/{id}` with body
`{...pickAction, championId, completed: true}`) or a my-selection patch
(`/lol-champ-select/v1/session/my-selection` with body `{selectedSkinId}`). -/
inductive WriteCall where
  | patchAction (id : Nat) (body : ChampSelectAction)
  | patchMySelection (selectedSkinId : Nat)
deriving Repr, DecidableEq

/-- Environment of one `selectSkin` call: the session fetch
(`.error` = `getChampSelectSession` threw a non-404 error) and the outcome
of the n-th write request, by the number of writes already issued. -/
structure SelectSkinEnv where
  session : Except String (Option ChampSelectSession)
  writeOutcome : Nat → Except String Unit

/-- `selectSkin` (lcu-client.ts:559-616): fetch the session, resolve the
local pick action, then issue the dependent writes strictly in order, each
awaited before the next; the whole body is wrapped in
`Failed to select skin: ${getErrorMessage(error)}`.  Returns the list of
writes issued (in order) together with the outcome. -/
def selectSkin (env : SelectSkinEnv) (championId skinId : Nat)
    (chromaId : Option Nat) : List WriteCall × Except String Bool :=
  match env.session with
  | .error e => ([], .error ("Failed to select skin: " ++ e))
  | .ok none => ([], .error ("Failed to select skin: " ++ "Not in champion select"))
  | .ok (some session) =>
    match getLocalPlayerPickAction (some session) with
    | none =>
      ([], .error ("Failed to select skin: " ++ "Pick action not found for local player"))
    | some pickAction =>
      let w1 := WriteCall.patchAction pickAction.id
        { pickAction with championId := championId, completed := some true }
      match env.writeOutcome 0 with
      | .error e => ([w1], .error ("Failed to select skin: " ++ e))
      | .ok _ =>
        let w2 := WriteCall.patchMySelection skinId
        match env.writeOutcome 1 with
        | .error e => ([w1, w2], .error ("Failed to select skin: " ++ e))
        | .ok _ =>
          match chromaId with
          | some cid =>
            let w3 := WriteCall.patchMySelection cid
            match env.writeOutcome 2 with
            | .error e => ([w1, w2, w3], .error ("Failed to select skin: " ++ e))
            | .ok _ => ([w1, w2, w3], .ok true)
          | none => ([w1, w2], .ok true)

/-- Supervisor instance fields of `LCUConnector` relevant to connection
retries (lcu-client.ts:76-79): the stored reconnect callback, the last
known connection state, whether the retry interval timer is set, and the
in-flight-attempt guard `isAttemptingConnection`. -/
structure SupervisorState where
  callbackSet : Bool
  lastConnectionState : Bool
  timerActive : Bool
  isAttemptingConnection : Bool
deriving Repr, DecidableEq

/-- Events driving the supervisor: the transport `connected` /
`disconnected` events, an explicit `startConnectionRetries` request (from
`connectWithRetry` or a failed liveness probe), resolution of an in-flight
connect attempt, a retry-timer tick, and an explicit `disconnect()` call. -/
inductive SupEvent where
  | connected
  | disconnected
  | startRetries
  | attemptResolved (success : Bool)
  | timerTick
  | disconnectCall
deriving Repr, DecidableEq

/-- `startConnectionRetries` (lcu-client.ts:125-158): a no-op while an
attempt is in flight; otherwise sets the guard, kicks off an attempt and
(re)arms the retry interval timer. -/
def startConnectionRetries (st : SupervisorState) : SupervisorState :=
  if st.isAttemptingConnection then st
  else { st with isAttemptingConnection := true, timerActive := true }

/-- One supervisor step (the event handlers of lcu-client.ts:95-158 and
`disconnect`, lcu-client.ts:231-254), returning the next state and the
number of `reconnectCallback` invocations the handler performs:
the `connected` handler records the connection, clears the guard and the
timer, and invokes the stored callback once; the `disconnected` handler
records the loss and calls `startConnectionRetries`; a resolved connect
attempt clears the guard on success and only logs on failure; a timer tick
mutates nothing by itself; `disconnect()` clears timer, guard, callback and
state. -/
def supStep (st : SupervisorState) : SupEvent → SupervisorState × Nat
  | .connected =>
    ({ st with lastConnectionState := true, isAttemptingConnection := false,
               timerActive := false },
     if st.callbackSet then 1 else 0)
  | .disconnected =>
    (startConnectionRetries { st with lastConnectionState := false }, 0)
  | .startRetries => (startConnectionRetries st, 0)
  | .attemptResolved success =>
    (if success then { st with isAttemptingConnection := false } else st, 0)
  | .timerTick => (st, 0)
  | .disconnectCall =>
    ({ st with timerActive := false, isAttemptingConnection := false,
               callbackSet := false, lastConnectionState := false }, 0)

/-- Run the supervisor over an event trace, accumulating the total number
of callback invocations. -/
def supRun (st : SupervisorState) : List SupEvent → SupervisorState × Nat
  | [] => (st, 0)
  | e :: es =>
    let (st1, k) := supStep st e
    let (st2, n) := supRun st1 es
    (st2, k + n)

/-! ## Concrete fixtures used by the witness theorems -/

/-- Data Dragon environment with one version and one champion entry. -/
def ddragonEnvOk : DdragonEnv where
  versions := .ok ["14.1.1"]
  championJson := fun v =>
    if v = "14.1.1" then .ok [("Caitlyn", "51")] else .error ()

/-- Data Dragon environment in which every fetch fails. -/
def ddragonEnvDown : DdragonEnv where
  versions := .error ()
  championJson := fun _ => .error ()

/-- Owned inventory skin with one owned chroma whose path ends in digits
plus `.png`. -/
def c5InvSkin : InvSkin :=
  { id := 51005, name := "Skin5", ownership := { owned := true },
    chromas := some [{ id := 51014, name := "Ruby",
                       chromaPath := some "/chromas/51014.png",
                       colors := none, ownership := some { owned := true } }] }

/-- The skin record the fallback source produces from `c5InvSkin`. -/
def c5Out : OwnedSkin :=
  { id := 51005, name := "Skin5", ownership := { owned := true },
    chromas := [{ id := 51014, name := "Ruby",
                  chromaPath := some "/chromas/51014.png",
                  colors := [], owned := true,
                  imageUrl := cdragonChromaUrl 51 51014,
                  chromaNum := Sum.inl "51014" }],
    hasOwnedChromas := true,
    loadingUrl := ddragonLoadingUrl "Caitlyn" 5,
    splashUrl := ddragonSplashUrl "Caitlyn" 5 }

/-- Carousel environment returning one owned Caitlyn skin. -/
def c9Env : SkinEnv :=
  { carousel := .ok (some [{ id := 51005, name := "Skin5", championId := 51,
                             ownership := some { owned := true }, childSkins := none }])
    champion := .ok none
    ddragon := ddragonEnvOk }

/-- Carousel entry belonging to a different champion. -/
def c3OtherSkin : CarouselSkin :=
  { id := 99001, name := "Other", championId := 99,
    ownership := some { owned := true }, childSkins := none }

/-- Carousel environment whose parent skin is unowned but has an owned
chroma child; every other source is empty or down. -/
def c10Env : SkinEnv :=
  { carousel := .ok (some
      [{ id := 51002, name := "SkinU", championId := 51,
         ownership := some { owned := false },
         childSkins := some
           [{ id := 51015, name := "ChromaO",
              chromaPreviewPath := some "/p/51015.png", chromaPath := none,
              colors := none, ownership := some { owned := true } }] }])
    champion := .ok none
    ddragon := ddragonEnvDown }

/-- The skin record the carousel branch produces in `c10Env`. -/
def c10Out : OwnedSkin :=
  { id := 51002, name := "SkinU", ownership := { owned := false },
    chromas := [{ id := 51015, name := "ChromaO",
                  chromaPath := some "/p/51015.png", colors := [],
                  owned := true, imageUrl := cdragonChromaUrl 51 51015,
                  chromaNum := Sum.inr 51015 }],
    hasOwnedChromas := true,
    loadingUrl := ddragonLoadingUrl "Champion51" 2,
    splashUrl := ddragonSplashUrl "Champion51" 2 }

/-- Session with one action group holding the local player's incomplete
pick action. -/
def c1Session : ChampSelectSession :=
  { localPlayerCellId := 0, myTeam := none,
    actions := some [[{ id := 5, actorCellId := 0, type := "pick",
                        completed := some false, championId := 0 }]] }

/-- Selection environment: session present, every write succeeds. -/
def c1Env : SelectSkinEnv :=
  { session := .ok (some c1Session), writeOutcome := fun _ => .ok () }

/-- Selection environment: session present, second write (the skin patch)
throws. -/
def c2Env : SelectSkinEnv :=
  { session := .ok (some c1Session)
    writeOutcome := fun n => if n = 1 then .error "boom" else .ok () }

/-! ## Session Interpreter properties -/

/-- `getSelectedChampionFromSession` on a present session is the mapped
result of the `myTeam` search. -/
theorem getSelectedChampionFromSession_some_eq (s : ChampSelectSession) :
    getSelectedChampionFromSession (some s) =
      ((s.myTeam.getD []).find? (fun m => m.cellId == s.localPlayerCellId)).map
        (fun m => m.championId) := by
  cases h : (s.myTeam.getD []).find? (fun m => m.cellId == s.localPlayerCellId) with
  | none => simp [getSelectedChampionFromSession, h]
  | some m => simp [getSelectedChampionFromSession, h]

/-- C6: `getSelectedChampionFromSession` locates the `myTeam` entry whose
`cellId` equals `localPlayerCellId` and returns its `championId`; it
returns `none` (never an exception) when the session is absent, `myTeam`
is absent, or no entry matches. -/
theorem claim_C6_selectedChampion :
    getSelectedChampionFromSession none = none
    ∧ (∀ s : ChampSelectSession, s.myTeam = none →
        getSelectedChampionFromSession (some s) = none)
    ∧ (∀ s : ChampSelectSession,
        (getSelectedChampionFromSession (some s) = none ↔
          ∀ m ∈ s.myTeam.getD [], m.cellId ≠ s.localPlayerCellId))
    ∧ (∀ (s : ChampSelectSession) (c : Nat),
        getSelectedChampionFromSession (some s) = some c →
          ∃ m ∈ s.myTeam.getD [], m.cellId = s.localPlayerCellId ∧ m.championId = c) := by
  refine ⟨rfl, ?_, ?_, ?_⟩
  · intro s h
    simp [getSelectedChampionFromSession, h]
  · intro s
    rw [getSelectedChampionFromSession_some_eq]
    rcases h : (s.myTeam.getD []).find? (fun m => m.cellId == s.localPlayerCellId) with
      _ | m
    · rw [h]
      simp only [List.find?_eq_none, beq_iff_eq] at h
      simpa using h
    · rw [h]
      have hp := List.find?_some h
      have hm := List.mem_of_find?_eq_some h
      simp only [beq_iff_eq] at hp
      refine iff_of_false (by simp) ?_
      intro hall
      exact hall m hm hp
  · intro s c
    rw [getSelectedChampionFromSession_some_eq]
    rcases h : (s.myTeam.getD []).find? (fun m => m.cellId == s.localPlayerCellId) with
      _ | m
    · rw [h]
      simp
    · rw [h]
      intro hc
      have hp := List.find?_some h
      have hm := List.mem_of_find?_eq_some h
      simp only [beq_iff_eq] at hp
      simp only [Option.map_some', Option.some.injEq] at hc
      exact ⟨m, hm, hp, hc⟩

/-- Witness for C6 at a concrete session. -/
theorem claim_C6_selectedChampion_witness :
    ∃ m ∈ (({ localPlayerCellId := 3,
              myTeam := some [⟨1, 10⟩, ⟨3, 42⟩],
              actions := none } : ChampSelectSession)).myTeam.getD [],
      m.cellId = ({ localPlayerCellId := 3,
                    myTeam := some [⟨1, 10⟩, ⟨3, 42⟩],
                    actions := none } : ChampSelectSession).localPlayerCellId
        ∧ m.championId = 42 :=
  claim_C6_selectedChampion.2.2.2
    { localPlayerCellId := 3, myTeam := some [⟨1, 10⟩, ⟨3, 42⟩], actions := none }
    42 (by decide)

/-- `getLocalPlayerPickAction` is the first matching action of the
flattened groups. -/
theorem getLocalPlayerPickAction_eq_find (s : ChampSelectSession)
    (groups : List (List ChampSelectAction)) (h : s.actions = some groups) :
    getLocalPlayerPickAction (some s) =
      groups.flatten.find?
        (fun a => a.actorCellId == s.localPlayerCellId && a.type == "pick") := by
  simp [getLocalPlayerPickAction, h]

/-- `isLocalPlayerLockedIn` as a test on the located pick action. -/
theorem isLocalPlayerLockedIn_eq (session : Option ChampSelectSession) :
    isLocalPlayerLockedIn session =
      ((getLocalPlayerPickAction session).map
        (fun a => a.completed == some true)).getD false := by
  unfold isLocalPlayerLockedIn
  cases getLocalPlayerPickAction session <;> rfl

/-- C7: `isLocalPlayerLockedIn` is true iff the flattened actions list has a
first action matching (`actorCellId = localPlayerCellId`, `type = "pick"`)
and that action's `completed` is exactly `true`; it is false when the first
match has `completed` omitted or false, and when the session or its
`actions` field is absent, not a list, or empty. -/
theorem claim_C7_isLockedIn :
    isLocalPlayerLockedIn none = false
    ∧ (∀ s : ChampSelectSession, s.actions = none → isLocalPlayerLockedIn (some s) = false)
    ∧ (∀ s : ChampSelectSession, s.actions = some [] → isLocalPlayerLockedIn (some s) = false)
    ∧ (∀ (s : ChampSelectSession) (a : ChampSelectAction),
        getLocalPlayerPickAction (some s) = some a → a.completed ≠ some true →
          isLocalPlayerLockedIn (some s) = false)
    ∧ (∀ (s : ChampSelectSession) (groups : List (List ChampSelectAction)),
        s.actions = some groups →
          (isLocalPlayerLockedIn (some s) = true ↔
            ∃ pre a post, groups.flatten = pre ++ a :: post
              ∧ a.actorCellId = s.localPlayerCellId ∧ a.type = "pick"
              ∧ a.completed = some true
              ∧ ∀ b ∈ pre, ¬ (b.actorCellId = s.localPlayerCellId ∧ b.type = "pick"))) := by
  refine ⟨rfl, ?_, ?_, ?_, ?_⟩
  · intro s h
    simp [isLocalPlayerLockedIn, getLocalPlayerPickAction, h]
  · intro s h
    simp [isLocalPlayerLockedIn, getLocalPlayerPickAction, h]
  · intro s a ha hc
    rw [isLocalPlayerLockedIn_eq, ha]
    simpa using hc
  · intro s groups h
    rw [isLocalPlayerLockedIn_eq, getLocalPlayerPickAction_eq_find s groups h]
    constructor
    · intro hlock
      rcases hfind : groups.flatten.find?
          (fun a => a.actorCellId == s.localPlayerCellId && a.type == "pick") with _ | a
      · rw [hfind] at hlock; simp at hlock
      · rw [hfind] at hlock
        simp only [Option.map_some', Option.getD_some, beq_iff_eq] at hlock
        rcases List.find?_eq_some.mp hfind with ⟨hp, pre, post, heq, hpre⟩
        simp only [Bool.and_eq_true, beq_iff_eq] at hp
        refine ⟨pre, a, post, heq, hp.1, hp.2, hlock, ?_⟩
        intro b hb hcontra
        have hfb := hpre b hb
        rw [hcontra.1, hcontra.2] at hfb
        simp at hfb
    · rintro ⟨pre, a, post, heq, h1, h2, h3, hpre⟩
      have hfind : groups.flatten.find?
          (fun a => a.actorCellId == s.localPlayerCellId && a.type == "pick") = some a := by
        apply List.find?_eq_some.mpr
        refine ⟨by simp [h1, h2], pre, post, heq, ?_⟩
        intro b hb
        have hnb := hpre b hb
        by_cases hb1 : b.actorCellId = s.localPlayerCellId
        · have hb2 : ¬ b.type = "pick" := fun hb2 => hnb ⟨hb1, hb2⟩
          simp [hb1, hb2]
        · simp [hb1]
      rw [hfind]
      simp [h3]

/-- Witness for C7 at a concrete session whose first pick action is
completed. -/
theorem claim_C7_isLockedIn_witness :
    isLocalPlayerLockedIn
        (some { localPlayerCellId := 2,
                myTeam := none,
                actions := some [[⟨7, 2, "ban", some true, 0⟩],
                                 [⟨8, 2, "pick", some true, 51⟩]] }) = true ↔
      ∃ pre a post,
        ([[(⟨7, 2, "ban", some true, 0⟩ : ChampSelectAction)],
          [⟨8, 2, "pick", some true, 51⟩]] : List (List ChampSelectAction)).flatten
            = pre ++ a :: post
          ∧ a.actorCellId = 2 ∧ a.type = "pick" ∧ a.completed = some true
          ∧ ∀ b ∈ pre, ¬ (b.actorCellId = 2 ∧ b.type = "pick") :=
  claim_C7_isLockedIn.2.2.2.2
    { localPlayerCellId := 2, myTeam := none,
      actions := some [[⟨7, 2, "ban", some true, 0⟩], [⟨8, 2, "pick", some true, 51⟩]] }
    [[⟨7, 2, "ban", some true, 0⟩], [⟨8, 2, "pick", some true, 51⟩]] rfl

/-! ## Champion name / metadata version cache -/

/-- C8: the name/version lookup never throws (it is total on every
environment, including failing fetches); on success the version is the
first element of the provider's version list and both lookups are cached
— subsequent calls return the cached values for any later environment,
i.e. without refetching; on a failed versions fetch the sentinel
`"latest"` is used, and on a failed champion-list fetch the name map is
empty so `getChampionNameById` yields the `Champion{id}` placeholder. -/
theorem claim_C8_nameCache :
    (∀ (env : DdragonEnv) (v : String) (rest : List String)
        (pairs : List (String × String)),
      env.versions = .ok (v :: rest) → v ≠ "" →
      env.championJson v = .ok pairs →
      getChampionNameMap env { championMap := none, ddragonVersion := none } =
        (pairs.map (fun p => (p.2, p.1)),
         { championMap := some (pairs.map (fun p => (p.2, p.1))),
           ddragonVersion := some v }))
    ∧ (∀ (env2 : DdragonEnv) (st : ConnectorState) (m : List (String × String)),
        st.championMap = some m → getChampionNameMap env2 st = (m, st))
    ∧ (∀ (env2 : DdragonEnv) (st : ConnectorState) (v : String),
        st.ddragonVersion = some v → getLatestDdragonVersion env2 st = (v, st))
    ∧ (∀ (env : DdragonEnv) (st : ConnectorState),
        st.ddragonVersion = none → env.versions = .error () →
        getLatestDdragonVersion env st =
          ("latest", { st with ddragonVersion := some "latest" }))
    ∧ (∀ (env : DdragonEnv) (st : ConnectorState),
        st.championMap = none → (∀ ver, env.championJson ver = .error ()) →
        (getChampionNameMap env st).1 = []
          ∧ ∀ championId : Nat,
              (getChampionNameById env st championId).1 =
                "Champion" ++ toString championId) := by
  refine ⟨?_, ?_, ?_, ?_, ?_⟩
  · intro env v rest pairs hv hne hj
    simp [getChampionNameMap, getLatestDdragonVersion, hv, hne, hj]
  · intro env2 st m hm
    simp [getChampionNameMap, hm]
  · intro env2 st v hv
    simp [getLatestDdragonVersion, hv]
  · intro env st hst hv
    simp [getLatestDdragonVersion, hst, hv]
  · intro env st hst hj
    have hmap : (getChampionNameMap env st).1 = [] := by
      simp only [getChampionNameMap, hst]
      rcases (getLatestDdragonVersion env st) with ⟨version, st1⟩
      simp [hj]
    refine ⟨hmap, ?_⟩
    intro championId
    simp [getChampionNameById, hmap, recordLookup]

/-- Witness for C8 at the two concrete environments. -/
theorem claim_C8_nameCache_witness :
    getChampionNameMap ddragonEnvOk { championMap := none, ddragonVersion := none } =
      ([("51", "Caitlyn")],
       { championMap := some [("51", "Caitlyn")], ddragonVersion := some "14.1.1" })
    ∧ getLatestDdragonVersion ddragonEnvDown { championMap := none, ddragonVersion := none } =
        ("latest", { championMap := none, ddragonVersion := some "latest" })
    ∧ (getChampionNameById ddragonEnvDown { championMap := none, ddragonVersion := none } 51).1 =
        "Champion" ++ toString 51 := by
  refine ⟨?_, ?_, ?_⟩
  · exact claim_C8_nameCache.1 ddragonEnvOk "14.1.1" [] [("Caitlyn", "51")]
      rfl (by decide) rfl
  · exact claim_C8_nameCache.2.2.2.1 ddragonEnvDown
      { championMap := none, ddragonVersion := none } rfl rfl
  · exact (claim_C8_nameCache.2.2.2.2 ddragonEnvDown
      { championMap := none, ddragonVersion := none } rfl (fun _ => rfl)).2 51

/-! ## Fallback inventory source properties -/

/-- A successful `trailingChromaNum` match means the path really ends in a
non-empty run of digits followed by a dot and a (case-insensitive)
`png`/`jpg` extension, and the digits are the matched run. -/
theorem trailingChromaNum_shape (path digits : String)
    (h : trailingChromaNum path = some digits) :
    digits.data ≠ [] ∧ digits.data.all Char.isDigit
    ∧ ∃ (pfx : List Char) (e1 e2 e3 : Char),
        path.data = pfx ++ digits.data ++ ['.', e1, e2, e3] ∧ extIsImage e1 e2 e3 := by
  unfold trailingChromaNum at h
  split at h
  · rename_i e3 e2 e1 rest heq
    have hpath : path.data = (e3 :: e2 :: e1 :: '.' :: rest).reverse := by
      rw [← heq, List.reverse_reverse]
    by_cases hext : extIsImage e1 e2 e3
    · rw [if_pos hext] at h
      by_cases hemp : (rest.takeWhile Char.isDigit).isEmpty
      · rw [if_pos hemp] at h; exact Option.noConfusion h
      · rw [if_neg hemp] at h
        have hd : digits = String.mk (rest.takeWhile Char.isDigit).reverse := by
          cases h; rfl
        refine ⟨?_, ?_, (rest.dropWhile Char.isDigit).reverse, e1, e2, e3, ?_, hext⟩
        · rw [hd]
          simp only [List.isEmpty_eq_true] at hemp
          simpa using hemp
        · rw [hd]
          simp only [List.all_eq_true]
          intro a ha
          exact List.mem_takeWhile_imp (List.mem_reverse.mp ha)
        · rw [hd, hpath]
          have hsplit : rest.takeWhile Char.isDigit ++ rest.dropWhile Char.isDigit = rest :=
            List.takeWhile_append_dropWhile Char.isDigit rest
          show (e3 :: e2 :: e1 :: '.' :: rest).reverse =
            (rest.dropWhile Char.isDigit).reverse ++ (rest.takeWhile Char.isDigit).reverse
              ++ ['.', e1, e2, e3]
          rw [← List.reverse_append, hsplit]
          simp
    · rw [if_neg hext] at h; exact Option.noConfusion h
  · exact Option.noConfusion h

/-- C5: every skin the fallback inventory source returns has ownership flag
`true`, every returned chroma has `owned = true`, and each chroma's
`chromaNum` is the trailing-digit run of its image path when the path ends
in digits followed by `.png`/`.jpg`, else the raw chroma id; the last
conjunct characterises the trailing-digit match itself. -/
theorem claim_C5_fallbackFilters :
    (∀ (championName : String) (championId : Nat) (skins : List InvSkin),
      ∀ skin ∈ fallbackSkins championName championId skins,
        skin.ownership.owned = true
        ∧ ∀ c ∈ skin.chromas,
            c.owned = true
            ∧ (∀ digits, trailingChromaNum (strOr c.chromaPath "") = some digits →
                c.chromaNum = Sum.inl digits)
            ∧ (trailingChromaNum (strOr c.chromaPath "") = none →
                c.chromaNum = Sum.inr c.id))
    ∧ (∀ path digits, trailingChromaNum path = some digits →
        digits.data ≠ [] ∧ digits.data.all Char.isDigit
        ∧ ∃ (pfx : List Char) (e1 e2 e3 : Char),
            path.data = pfx ++ digits.data ++ ['.', e1, e2, e3] ∧ extIsImage e1 e2 e3) := by
  constructor
  · intro championName championId skins skin hskin
    rw [fallbackSkins] at hskin
    rcases List.mem_map.mp hskin with ⟨s0, hs0, hmk⟩
    have hs0own := (List.mem_filter.mp hs0).2
    constructor
    · rw [← hmk]; exact hs0own
    · intro c hc
      rw [← hmk] at hc
      simp only at hc
      have hcf := List.mem_filter.mp hc
      rcases List.mem_map.mp hcf.1 with ⟨c0, _, hc0⟩
      refine ⟨hcf.2, ?_, ?_⟩
      · intro digits hdig
        rw [← hc0] at hdig ⊢
        simp only [fallbackChroma] at hdig ⊢
        rw [hdig]
      · intro hdig
        rw [← hc0] at hdig ⊢
        simp only [fallbackChroma] at hdig ⊢
        rw [hdig]
  · exact fun path digits h => trailingChromaNum_shape path digits h

/-- Witness for C5 at the concrete fallback result. -/
theorem claim_C5_fallbackFilters_witness :
    c5Out.ownership.owned = true
    ∧ ∀ c ∈ c5Out.chromas,
        c.owned = true
        ∧ (∀ digits, trailingChromaNum (strOr c.chromaPath "") = some digits →
            c.chromaNum = Sum.inl digits)
        ∧ (trailingChromaNum (strOr c.chromaPath "") = none →
            c.chromaNum = Sum.inr c.id) :=
  claim_C5_fallbackFilters.1 "Caitlyn" 51 [c5InvSkin] c5Out (by decide)

/-! ## Skin resolver: loading URLs and fallback equivalence -/

theorem getLatestDdragonVersion_championMap (env : DdragonEnv) (st : ConnectorState) :
    (getLatestDdragonVersion env st).2.championMap = st.championMap := by
  unfold getLatestDdragonVersion
  rcases st.ddragonVersion with _ | v
  · rcases env.versions with e | data <;> simp
  · simp

theorem getLatestDdragonVersion_version (env : DdragonEnv) (st : ConnectorState) :
    (getLatestDdragonVersion env st).2.ddragonVersion =
      some (getLatestDdragonVersion env st).1 := by
  unfold getLatestDdragonVersion
  rcases h : st.ddragonVersion with _ | v
  · rcases env.versions with e | data <;> simp
  · simpa using h

theorem getLatestDdragonVersion_cached (env : DdragonEnv) (st : ConnectorState) (v : String)
    (h : st.ddragonVersion = some v) : getLatestDdragonVersion env st = (v, st) := by
  simp [getLatestDdragonVersion, h]

theorem getChampionNameMap_cached (env : DdragonEnv) (st : ConnectorState)
    (m : List (String × String)) (h : st.championMap = some m) :
    getChampionNameMap env st = (m, st) := by
  simp [getChampionNameMap, h]

/-- Calling `getChampionNameMap` again on the state a first call produced
returns the same map and leaves the state fixed. -/
theorem getChampionNameMap_idem (env : DdragonEnv) (st : ConnectorState) :
    getChampionNameMap env (getChampionNameMap env st).2 = getChampionNameMap env st := by
  rcases hm : st.championMap with _ | m
  · rcases hv : getLatestDdragonVersion env st with ⟨v, st1⟩
    have hst1map : st1.championMap = none := by
      have := getLatestDdragonVersion_championMap env st
      rw [hv] at this
      rw [this, hm]
    have hst1ver : st1.ddragonVersion = some v := by
      have := getLatestDdragonVersion_version env st
      rw [hv] at this
      exact this
    rcases hj : env.championJson v with e | pairs
    · have h1 : getChampionNameMap env st = ([], st1) := by
        simp [getChampionNameMap, hm, hv, hj]
      rw [h1]
      simp [getChampionNameMap, hst1map, getLatestDdragonVersion_cached env st1 v hst1ver, hj]
    · have h1 : getChampionNameMap env st =
          (pairs.map (fun p => (p.2, p.1)),
           { st1 with championMap := some (pairs.map (fun p => (p.2, p.1))) }) := by
        simp [getChampionNameMap, hm, hv, hj]
      rw [h1]
      simp [getChampionNameMap]
  · rw [getChampionNameMap_cached env st m hm, getChampionNameMap_cached env st m hm]

/-- Calling `getChampionNameById` again on the state a first call produced
returns the same name and leaves the state fixed. -/
theorem getChampionNameById_idem (env : DdragonEnv) (st : ConnectorState) (championId : Nat) :
    getChampionNameById env (getChampionNameById env st championId).2 championId =
      getChampionNameById env st championId := by
  rcases hm : getChampionNameMap env st with ⟨m, st1⟩
  have hidem := getChampionNameMap_idem env st
  rw [hm] at hidem
  simp only [getChampionNameById, hm, hidem]

/-- Every skin the carousel branch produces carries the loading URL built
from the champion slug and `id mod 1000`. -/
theorem carouselSkins_loadingUrl (championName : String) (championId : Nat)
    (list : List CarouselSkin) (skin : OwnedSkin)
    (h : skin ∈ carouselSkins championName championId list) :
    skin.loadingUrl = ddragonLoadingUrl championName (skin.id % 1000) := by
  rw [carouselSkins] at h
  rcases List.mem_filterMap.mp h with ⟨a, _, ha⟩
  simp only [carouselEntry] at ha
  split at ha
  · cases ha
    rfl
  · exact Option.noConfusion ha

/-- Every skin the fallback branch produces carries the loading URL built
from the champion slug and `id mod 1000`. -/
theorem fallbackSkins_loadingUrl (championName : String) (championId : Nat)
    (skins : List InvSkin) (skin : OwnedSkin)
    (h : skin ∈ fallbackSkins championName championId skins) :
    skin.loadingUrl = ddragonLoadingUrl championName (skin.id % 1000) := by
  rw [fallbackSkins] at h
  rcases List.mem_map.mp h with ⟨a, _, ha⟩
  cases ha
  rfl

/-- C9: every skin `getChampionSkins` returns (on either source) has its
loading-screen URL built as
`{ddragon-base}/cdn/img/champion/loading/{slug}_{id mod 1000}.jpg` with the
slug taken from the champion-name cache; and concretely for skin id 51005
under slug "Caitlyn" the URL ends in `champion/loading/Caitlyn_5.jpg`. -/
theorem claim_C9_loadingUrl :
    (∀ (env : SkinEnv) (st : ConnectorState) (championId : Nat)
        (skins : List OwnedSkin) (st' : ConnectorState),
      getChampionSkins env st championId = (.ok skins, st') →
      ∀ skin ∈ skins,
        skin.loadingUrl =
          ddragonLoadingUrl (getChampionNameById env.ddragon st championId).1
            (skin.id % 1000))
    ∧ ddragonLoadingUrl "Caitlyn" (51005 % 1000) =
        "https://ddragon.leagueoflegends.com/cdn/img/champion/loading/Caitlyn_5.jpg" := by
  constructor
  · intro env st championId skins st' h skin hskin
    rcases hname : getChampionNameById env.ddragon st championId with ⟨n, st1⟩
    have hidem := getChampionNameById_idem env.ddragon st championId
    rw [hname] at hidem
    unfold getChampionSkins at h
    have hfallback : ∀ st0 : ConnectorState,
        (getChampionNameById env.ddragon st0 championId).1 = n →
        (match env.champion with
          | .error e => ((Except.error e : Except String (List OwnedSkin)), st0)
          | .ok none => (.ok [], st0)
          | .ok (some champion) =>
            match champion.skins with
            | none => (.ok [], st0)
            | some sk =>
              (.ok (fallbackSkins (getChampionNameById env.ddragon st0 championId).1
                      championId sk),
               (getChampionNameById env.ddragon st0 championId).2)) =
            ((.ok skins : Except String (List OwnedSkin)), st') →
        skin.loadingUrl = ddragonLoadingUrl n (skin.id % 1000) := by
      intro st0 hn0 hmatch
      split at hmatch
      · exact absurd (congrArg Prod.fst hmatch) (by simp)
      · have hnil : ([] : List OwnedSkin) = skins := by
          have := congrArg Prod.fst hmatch
          simpa using this
        rw [← hnil] at hskin
        exact absurd hskin (List.not_mem_nil skin)
      · split at hmatch
        · have hnil : ([] : List OwnedSkin) = skins := by
            have := congrArg Prod.fst hmatch
            simpa using this
          rw [← hnil] at hskin
          exact absurd hskin (List.not_mem_nil skin)
        · rename_i sk hsk
          have hskins : fallbackSkins (getChampionNameById env.ddragon st0 championId).1
              championId sk = skins := by
            have := congrArg Prod.fst hmatch
            simpa using this
          rw [← hskins, hn0] at hskin
          exact fallbackSkins_loadingUrl n championId sk skin hskin
    rcases hc : env.carousel with e | (_ | list)
    · rw [hc] at h
      simp only at h
      exact hfallback st (by rw [hname]) h
    · rw [hc] at h
      simp only at h
      exact hfallback st (by rw [hname]) h
    · rw [hc] at h
      simp only [hname] at h
      by_cases hlen : (carouselSkins n championId list).length > 0
      · rw [if_pos hlen] at h
        simp only [Prod.mk.injEq, Except.ok.injEq] at h
        rw [← h.1] at hskin
        exact carouselSkins_loadingUrl n championId list skin hskin
      · rw [if_neg hlen] at h
        exact hfallback st1 (by rw [hidem]) h
  · rfl

/-- Witness for C9 applying the theorem at `c9Env`. -/
theorem claim_C9_loadingUrl_witness :
    ∀ skin ∈ [{ id := 51005, name := "Skin5", ownership := { owned := true },
                chromas := [], hasOwnedChromas := false,
                loadingUrl := ddragonLoadingUrl "Caitlyn" 5,
                splashUrl := ddragonSplashUrl "Caitlyn" 5 : OwnedSkin }],
      skin.loadingUrl =
        ddragonLoadingUrl
          (getChampionNameById c9Env.ddragon
            { championMap := none, ddragonVersion := none } 51).1
          (skin.id % 1000) :=
  claim_C9_loadingUrl.1 c9Env { championMap := none, ddragonVersion := none } 51
    [{ id := 51005, name := "Skin5", ownership := { owned := true },
       chromas := [], hasOwnedChromas := false,
       loadingUrl := ddragonLoadingUrl "Caitlyn" 5,
       splashUrl := ddragonSplashUrl "Caitlyn" 5 }]
    { championMap := some [("51", "Caitlyn")], ddragonVersion := some "14.1.1" }
    rfl

/-- C3: for a carousel list with no entry for the requested champion,
`getChampionSkins` returns the same result as when the carousel request
throws, and in both cases that result is exactly the fallback inventory
source's result. -/
theorem claim_C3_fallbackEquiv :
    ∀ (env : SkinEnv) (st : ConnectorState) (championId : Nat) (list : List CarouselSkin),
      (∀ s ∈ list, s.championId ≠ championId) →
      (getChampionSkins { env with carousel := .error () } st championId).1 =
          (getChampionSkins { env with carousel := .ok (some list) } st championId).1
      ∧ (getChampionSkins { env with carousel := .error () } st championId).1 =
          (match env.champion with
            | .error e => .error e
            | .ok none => .ok []
            | .ok (some champion) =>
              match champion.skins with
              | none => .ok []
              | some sk =>
                .ok (fallbackSkins (getChampionNameById env.ddragon st championId).1
                       championId sk)) := by
  intro env st championId list hne
  have hnil : ∀ n : String, carouselSkins n championId list = [] := by
    intro n
    rw [carouselSkins, List.filter_eq_nil_iff.mpr]
    · rfl
    · intro s hs
      simpa using hne s hs
  rcases hname : getChampionNameById env.ddragon st championId with ⟨n, st1⟩
  have hidem := getChampionNameById_idem env.ddragon st championId
  rw [hname] at hidem
  have hidem2 : getChampionNameById env.ddragon st1 championId = (n, st1) := hidem
  have h1 : (getChampionSkins { env with carousel := .error () } st championId).1 =
      (match env.champion with
        | .error e => Except.error e
        | .ok none => .ok []
        | .ok (some champion) =>
          match champion.skins with
          | none => .ok []
          | some sk => .ok (fallbackSkins n championId sk)) := by
    rcases hchamp : env.champion with e | mc
    · simp [getChampionSkins, hchamp]
    · rcases mc with _ | champ
      · simp [getChampionSkins, hchamp]
      · rcases hsk : champ.skins with _ | sk
        · simp [getChampionSkins, hchamp, hsk]
        · simp [getChampionSkins, hchamp, hsk, hname]
  have h2 : (getChampionSkins { env with carousel := .ok (some list) } st championId).1 =
      (match env.champion with
        | .error e => Except.error e
        | .ok none => .ok []
        | .ok (some champion) =>
          match champion.skins with
          | none => .ok []
          | some sk => .ok (fallbackSkins n championId sk)) := by
    rcases hchamp : env.champion with e | mc
    · simp [getChampionSkins, hchamp, hname, hnil]
    · rcases mc with _ | champ
      · simp [getChampionSkins, hchamp, hname, hnil]
      · rcases hsk : champ.skins with _ | sk
        · simp [getChampionSkins, hchamp, hsk, hname, hnil]
        · simp [getChampionSkins, hchamp, hsk, hname, hnil, hidem2]
  exact ⟨h1.trans h2.symm, h1.trans rfl⟩

/-- Witness for C3 at a concrete environment and carousel list. -/
theorem claim_C3_fallbackEquiv_witness :
    (getChampionSkins
        { carousel := .error (), champion := .ok (some { skins := some [c5InvSkin] }),
          ddragon := ddragonEnvOk } { championMap := none, ddragonVersion := none } 51).1 =
      (getChampionSkins
        { carousel := .ok (some [c3OtherSkin]),
          champion := .ok (some { skins := some [c5InvSkin] }),
          ddragon := ddragonEnvOk } { championMap := none, ddragonVersion := none } 51).1 :=
  (claim_C3_fallbackEquiv
    { carousel := .error (), champion := .ok (some { skins := some [c5InvSkin] }),
      ddragon := ddragonEnvOk }
    { championMap := none, ddragonVersion := none } 51 [c3OtherSkin]
    (by decide)).1

/-! ## Carousel branch can return an unowned parent skin -/

/-- C10: the carousel source passes an unowned parent skin's raw ownership
through unchanged — for this input `resolveOwnedSkins` returns a skin with
`ownership.owned = false` and a non-empty chroma list, so the
no-unowned-skins guarantee holds only for the fallback source. -/
theorem claim_C10_carouselUnowned :
    (getChampionSkins c10Env { championMap := none, ddragonVersion := none } 51).1 =
      .ok [c10Out]
    ∧ c10Out.ownership.owned = false
    ∧ c10Out.chromas ≠ [] := by
  refine ⟨rfl, rfl, ?_⟩
  decide

/-! ## Selection writer -/

/-- C1: with a session and a local pick action present and all writes
succeeding, `selectSkin` issues exactly the pick-action patch (with
`championId` and `completed = true`), then the my-selection patch with
`selectedSkinId = skinId`, then — iff a chroma was requested — a second
my-selection patch with `selectedSkinId = chromaId`: three writes in that
order with those payloads (two when `chromaId` is absent). -/
theorem claim_C1_selectSkinWrites :
    ∀ (env : SelectSkinEnv) (s : ChampSelectSession) (a : ChampSelectAction)
      (championId skinId : Nat),
      env.session = .ok (some s) →
      getLocalPlayerPickAction (some s) = some a →
      (∀ n, env.writeOutcome n = .ok ()) →
      (∀ chromaId : Nat,
          selectSkin env championId skinId (some chromaId) =
            ([.patchAction a.id { a with championId := championId, completed := some true },
              .patchMySelection skinId, .patchMySelection chromaId], .ok true))
      ∧ selectSkin env championId skinId none =
          ([.patchAction a.id { a with championId := championId, completed := some true },
            .patchMySelection skinId], .ok true) := by
  intro env s a championId skinId hs ha hw
  constructor
  · intro chromaId
    simp [selectSkin, hs, ha, hw 0, hw 1, hw 2]
  · simp [selectSkin, hs, ha, hw 0, hw 1]

/-- Witness for C1 at a concrete environment, with and without a chroma. -/
theorem claim_C1_selectSkinWrites_witness :
    selectSkin c1Env 51 51005 (some 51014) =
      ([.patchAction 5 { id := 5, actorCellId := 0, type := "pick",
                         completed := some true, championId := 51 },
        .patchMySelection 51005, .patchMySelection 51014], .ok true)
    ∧ selectSkin c1Env 51 51005 none =
        ([.patchAction 5 { id := 5, actorCellId := 0, type := "pick",
                           completed := some true, championId := 51 },
          .patchMySelection 51005], .ok true) := by
  have h := claim_C1_selectSkinWrites c1Env c1Session
    { id := 5, actorCellId := 0, type := "pick", completed := some false, championId := 0 }
    51 51005 rfl rfl (fun _ => rfl)
  exact ⟨h.1 51014, h.2⟩

/-- `selectSkin` either succeeds with `true` or fails with a single wrapped
error whose message prefixes the underlying cause. -/
theorem selectSkin_result_shape (env : SelectSkinEnv) (championId skinId : Nat)
    (chromaId : Option Nat) :
    (selectSkin env championId skinId chromaId).2 = .ok true
    ∨ ∃ cause, (selectSkin env championId skinId chromaId).2 =
        .error ("Failed to select skin: " ++ cause) := by
  rcases hs : env.session with e | (_ | s)
  · refine .inr ⟨e, ?_⟩
    simp [selectSkin, hs]
  · refine .inr ⟨"Not in champion select", ?_⟩
    simp [selectSkin, hs]
  · cases hp : getLocalPlayerPickAction (some s)
    · refine .inr ⟨"Pick action not found for local player", ?_⟩
      simp [selectSkin, hs, hp]
    · rcases hw0 : env.writeOutcome 0 with e | u
      · refine .inr ⟨e, ?_⟩
        simp [selectSkin, hs, hp, hw0]
      · rcases hw1 : env.writeOutcome 1 with e | u
        · refine .inr ⟨e, ?_⟩
          simp [selectSkin, hs, hp, hw0, hw1]
        · rcases chromaId with _ | cid
          · refine .inl ?_
            simp [selectSkin, hs, hp, hw0, hw1]
          · rcases hw2 : env.writeOutcome 2 with e | u
            · refine .inr ⟨e, ?_⟩
              simp [selectSkin, hs, hp, hw0, hw1, hw2]
            · refine .inl ?_
              simp [selectSkin, hs, hp, hw0, hw1, hw2]

/-- C2: `selectSkin` fails before any write when the session is absent
("not in champion select") or the local pick action is missing ("no pick
action"); every failure — including a thrown session fetch and a failing
k-th write — aborts the remaining writes (the issued writes are exactly the
first `k+1` of the successful run's writes, so earlier partial writes stay
applied) and surfaces one wrapped "Failed to select skin" error carrying the
cause's message text. -/
theorem claim_C2_selectSkinErrors :
    ∀ (env : SelectSkinEnv) (championId skinId : Nat) (chromaId : Option Nat),
      (env.session = .ok none →
        selectSkin env championId skinId chromaId =
          ([], .error ("Failed to select skin: " ++ "Not in champion select")))
      ∧ (∀ s, env.session = .ok (some s) → getLocalPlayerPickAction (some s) = none →
          selectSkin env championId skinId chromaId =
            ([], .error ("Failed to select skin: " ++ "Pick action not found for local player")))
      ∧ (∀ e, env.session = .error e →
          selectSkin env championId skinId chromaId =
            ([], .error ("Failed to select skin: " ++ e)))
      ∧ (∀ msg, (selectSkin env championId skinId chromaId).2 = .error msg →
          ∃ cause, msg = "Failed to select skin: " ++ cause)
      ∧ (∀ (k : Nat) (e : String) (s : ChampSelectSession) (a : ChampSelectAction),
          env.session = .ok (some s) →
          getLocalPlayerPickAction (some s) = some a →
          env.writeOutcome k = .error e →
          (∀ j, j < k → env.writeOutcome j = .ok ()) →
          k < 2 + (if chromaId.isSome then 1 else 0) →
          (selectSkin env championId skinId chromaId).1 =
            ((selectSkin { env with writeOutcome := fun _ => .ok () }
                championId skinId chromaId).1.take (k + 1))
          ∧ (selectSkin env championId skinId chromaId).2 =
              .error ("Failed to select skin: " ++ e)) := by
  intro env championId skinId chromaId
  refine ⟨?_, ?_, ?_, ?_, ?_⟩
  · intro h
    simp [selectSkin, h]
  · intro s hs hp
    simp [selectSkin, hs, hp]
  · intro e he
    simp [selectSkin, he]
  · intro msg h
    rcases selectSkin_result_shape env championId skinId chromaId with hok | ⟨cause, herr⟩
    · rw [hok] at h
      exact absurd h (by simp)
    · rw [herr] at h
      exact ⟨cause, by simpa using h.symm⟩
  · intro k e s a hs ha hwk hwj hk
    rcases chromaId with _ | cid
    · simp only [Option.isSome_none, Bool.false_eq_true, if_false] at hk
      match k, hk with
      | 0, _ =>
        constructor <;> simp [selectSkin, hs, ha, hwk]
      | 1, _ =>
        have h0 := hwj 0 (by omega)
        constructor <;> simp [selectSkin, hs, ha, h0, hwk]
    · simp only [Option.isSome_some, if_true] at hk
      match k, hk with
      | 0, _ =>
        constructor <;> simp [selectSkin, hs, ha, hwk]
      | 1, _ =>
        have h0 := hwj 0 (by omega)
        constructor <;> simp [selectSkin, hs, ha, h0, hwk]
      | 2, _ =>
        have h0 := hwj 0 (by omega)
        have h1 := hwj 1 (by omega)
        constructor <;> simp [selectSkin, hs, ha, h0, h1, hwk]

/-- Witness for C2: empty-session failure and a mid-sequence write failure
at a concrete environment. -/
theorem claim_C2_selectSkinErrors_witness :
    selectSkin { session := .ok none, writeOutcome := fun _ => .ok () } 51 51005 none =
      ([], .error ("Failed to select skin: " ++ "Not in champion select"))
    ∧ (selectSkin c2Env 51 51005 (some 51014)).1 =
        ((selectSkin { c2Env with writeOutcome := fun _ => .ok () } 51 51005
            (some 51014)).1.take 2)
    ∧ (selectSkin c2Env 51 51005 (some 51014)).2 =
        .error ("Failed to select skin: " ++ "boom") := by
  refine ⟨(claim_C2_selectSkinErrors
      { session := .ok none, writeOutcome := fun _ => .ok () } 51 51005 none).1 rfl, ?_⟩
  have h := (claim_C2_selectSkinErrors c2Env 51 51005 (some 51014)).2.2.2.2 1 "boom"
    c1Session
    { id := 5, actorCellId := 0, type := "pick", completed := some false, championId := 0 }
    rfl rfl rfl (by intro j hj; interval_cases j; rfl) (by decide)
  exact h

/-! ## Connection supervisor -/

/-- Only an explicit `disconnect()` clears the stored reconnect callback. -/
theorem supStep_callbackSet (st : SupervisorState) (e : SupEvent)
    (h : e ≠ SupEvent.disconnectCall) :
    (supStep st e).1.callbackSet = st.callbackSet := by
  cases e with
  | connected => rfl
  | disconnected =>
    simp only [supStep, startConnectionRetries]
    split <;> rfl
  | startRetries =>
    simp only [supStep, startConnectionRetries]
    split <;> rfl
  | attemptResolved success =>
    simp only [supStep]
    split <;> rfl
  | timerTick => rfl
  | disconnectCall => exact absurd rfl h

/-- C4: a retry request while an attempt is in flight is a no-op (the
in-flight guard), and over any event trace without an explicit
`disconnect()` the stored callback fires exactly once per `connected`
transition — never twice for the same connection instance. -/
theorem claim_C4_supervisor :
    (∀ st : SupervisorState, st.isAttemptingConnection = true →
        supStep st .startRetries = (st, 0))
    ∧ (∀ (st : SupervisorState) (es : List SupEvent),
        st.callbackSet = true → SupEvent.disconnectCall ∉ es →
        (supRun st es).2 = es.count .connected) := by
  constructor
  · intro st h
    simp [supStep, startConnectionRetries, h]
  · intro st es
    induction es generalizing st with
    | nil =>
      intro _ _
      simp [supRun, List.count_nil]
    | cons e es ih =>
      intro hcb hmem
      have hene : e ≠ .disconnectCall := by
        intro h
        exact hmem (h ▸ List.mem_cons_self e es)
      have hmem2 : SupEvent.disconnectCall ∉ es := fun h => hmem (List.mem_cons_of_mem e h)
      have hcb1 : (supStep st e).1.callbackSet = true := by
        rw [supStep_callbackSet st e hene]
        exact hcb
      have hrec := ih (supStep st e).1 hcb1 hmem2
      have hsteprun : supRun st (e :: es) =
          ((supRun (supStep st e).1 es).1,
           (supStep st e).2 + (supRun (supStep st e).1 es).2) := by
        simp only [supRun]
      rw [hsteprun]
      simp only []
      rw [hrec, List.count_cons]
      cases e with
      | connected => simp [supStep, hcb, Nat.add_comm]
      | disconnected => simp [supStep]
      | startRetries => simp [supStep]
      | attemptResolved success => simp [supStep]
      | timerTick => simp [supStep]
      | disconnectCall => exact absurd rfl hene

/-- Witness for C4: the guard makes a concrete retry request a no-op, and a
concrete five-event trace with two `connected` transitions fires the
callback exactly twice. -/
theorem claim_C4_supervisor_witness :
    supStep { callbackSet := true, lastConnectionState := false,
              timerActive := true, isAttemptingConnection := true } .startRetries =
      ({ callbackSet := true, lastConnectionState := false,
         timerActive := true, isAttemptingConnection := true }, 0)
    ∧ (supRun { callbackSet := true, lastConnectionState := false,
                timerActive := false, isAttemptingConnection := false }
        [.startRetries, .connected, .disconnected,
         .attemptResolved true, .connected]).2 =
        ([.startRetries, .connected, .disconnected,
          .attemptResolved true, .connected] : List SupEvent).count .connected := by
  refine ⟨claim_C4_supervisor.1 _ rfl, claim_C4_supervisor.2 _ _ rfl (by decide)⟩

end SkinSelector
